import Mathlib

/-!
Shallow embedding of the `ai-service` chat backend
(`src/ai-service/app/main.py`): data model, prompt construction,
the `RagService.generate_response` call, and the `/api/chat` handler
with its error mapping, together with theorems settling the spec's
claims about them.

The external Gemini model client is abstracted as a function from the
full prompt string to a client result (a returned response object or a
raised exception); everything else is translated directly from the
Python source.
-/

namespace AiService

/-- The `ERROR_MESSAGES` dictionary of `main.py` (keys
`empty_query`, `service_unavailable`, `processing_error`). -/
def ERROR_MESSAGES : String → String
  | "empty_query" => "გთხოვთ დაწეროთ თქვენი კითხვა"
  | "service_unavailable" => "სერვისი დროებით მიუწვდომელია"
  | "processing_error" => "შეცდომა დამუშავებისას"
  | _ => ""

/-- The `role` field of `ConversationMessage`, a
`Literal["user", "assistant"]` in the pydantic schema. -/
inductive Role where
  | user
  | assistant
deriving DecidableEq, Repr

/-- The string value a `Role` stands for in the JSON payload. -/
def Role.toStr : Role → String
  | .user => "user"
  | .assistant => "assistant"

/-- `ConversationMessage` request-schema entry: a validated role plus
free-form content. -/
structure ConversationMessage where
  role : Role
  content : String
deriving DecidableEq, Repr

/-- `ChatRequest`: the new message plus optional history
(defaulting to `[]` in the pydantic model). -/
structure ChatRequest where
  message : String
  conversation_history : List ConversationMessage := []
deriving DecidableEq, Repr

/-- `Source` response-schema entry. The Python field `section` is a
Lean keyword, so it is embedded as `sectionVal`. -/
structure Source where
  id : Nat
  content : String
  sectionVal : String
deriving DecidableEq, Repr

/-- The metadata dictionary built by `generate_response`: it always
holds exactly the keys `model` and `has_history`. -/
structure Metadata where
  model : String
  has_history : Bool
deriving DecidableEq, Repr

/-- `ChatResponse`: answer text, source list and metadata. -/
structure ChatResponse where
  answer : String
  sources : List Source
  metadata : Metadata
deriving DecidableEq, Repr

/-- A history entry as passed to `RagService.generate_response`: a
plain `{"role": ..., "content": ...}` dictionary whose `role` is an
arbitrary string (the internal call bypasses the request schema). -/
structure HistMsg where
  role : String
  content : String
deriving DecidableEq, Repr

/-- Outcome of one `self.model.generate_content(prompt)` call:
either the call raises an exception with some message, or it returns a
response object — `none` models a falsy response object, `some t`
a response whose `.text` is `t` (possibly empty, hence falsy). -/
inductive ClientResult where
  | raises (msg : String)
  | returns (resp : Option String)
deriving DecidableEq, Repr

/-- The model client held by `RagService` (`self.model`), abstracted
as the prompt-to-outcome behaviour of `generate_content`. -/
structure RagService where
  generateContent : String → ClientResult

/-- The fixed system instruction string of `generate_response`
(Python adjacent-literal concatenation). -/
def systemInstruction : String :=
  "შენ ხარ დამხმარე AI ასისტენტი Subconscious აპისთვის. " ++
  "უპასუხე მკაფიოდ, სტრუქტურირებულად და მაქსიმალურად სასარგებლოდ. " ++
  "თუ კითხვა არ არის ნათელი, სთხოვი მომხმარებელს დაზუსტებას."

/-- One line of the history block:
`prefix = "User" if msg["role"] == "user" else "Assistant"` followed by
`f"{prefix}: {msg['content']}"`. -/
def renderHistoryLine (msg : HistMsg) : String :=
  (if msg.role = "user" then "User" else "Assistant") ++ ": " ++ msg.content

/-- The `history_text` local of `generate_response`:
`"\n".join(history_text_lines) if history_text_lines else "—"`. -/
def historyText (history : List HistMsg) : String :=
  let history_text_lines := history.map renderHistoryLine
  if history_text_lines.isEmpty then "—"
  else String.intercalate "\n" history_text_lines

/-- The `full_prompt` built inside `generate_response` from the
history and the new query. -/
def buildPrompt (history : List HistMsg) (query : String) : String :=
  systemInstruction ++ "\n\n" ++
  "საუბრის ისტორია:\n" ++ historyText history ++ "\n\n" ++
  "ახლა მომხმარებლის ახალი კითხვა:\nUser: " ++ query ++ "\n\n" ++
  "გთხოვ დეტალური და გასაგები პასუხი ქართულად."

/-- The fixed fallback answer substituted when the client returns no
usable text. -/
def fallbackAnswer : String :=
  "ვერ შევძელი ამ კითხვის დამუშავება, სცადე სხვა ფორმულირება."

/-- Content text of the single synthetic source document. -/
def syntheticSourceContent : String :=
  "პასუხი გენერირებულია Gemini მოდელით მოცემული ისტორიის და კითხვის საფუძველზე."

/-- A raw source document dictionary (`content` / `section` keys). -/
structure SourceDoc where
  content : String
  sectionVal : String
deriving DecidableEq, Repr

/-- The dictionary returned by `generate_response` on success:
keys `answer`, `source_documents`, `metadata`. -/
structure RawResult where
  answer : String
  source_documents : List SourceDoc
  metadata : Metadata
deriving DecidableEq, Repr

/-- `RagService.generate_response`: build the prompt, call the model;
a raised exception is re-raised as `RuntimeError(f"Gemini error: {e}")`
(the `Except.error` case); otherwise assemble the raw answer dict with
the fallback text when the response or its text is falsy, one default
source document, and the metadata dict. -/
def RagService.generate_response (svc : RagService) (query : String)
    (history : List HistMsg) : Except String RawResult :=
  let full_prompt := buildPrompt history query
  match svc.generateContent full_prompt with
  | .raises e => .error ("Gemini error: " ++ e)
  | .returns response =>
    let answer_text :=
      match response with
      | none => fallbackAnswer
      | some t => if t = "" then fallbackAnswer else t
    .ok { answer := answer_text,
          source_documents :=
            [{ content := syntheticSourceContent,
               sectionVal := "model: gemini-2.5-flash" }],
          metadata := { model := "gemini-2.5-flash",
                        has_history := !history.isEmpty } }

/-- The `history_payload` list comprehension of the `chat` handler:
schema messages turned into plain role/content dictionaries. -/
def historyPayload (hist : List ConversationMessage) : List HistMsg :=
  hist.map fun m => { role := m.role.toStr, content := m.content }

/-- An exception escaping the handler's `try` block: either an
`HTTPException` (status, detail) or any other Python exception. -/
inductive HandlerExc where
  | http (status : Nat) (detail : String)
  | other (msg : String)
deriving DecidableEq, Repr

/-- Terminal outcome of one request: a 200 `ChatResponse` or an
`HTTPException` surfacing as an error status with a detail message. -/
inductive ChatOutcome where
  | success (resp : ChatResponse)
  | httpError (status : Nat) (detail : String)
deriving DecidableEq, Repr

/-- Body of the `try` block of the `chat` handler: prepare the
history payload, call `generate_response`, and reshape the raw dict
into a `ChatResponse` (sources numbered by `enumerate`). -/
def chatTryBlock (svc : RagService) (request : ChatRequest) :
    Except HandlerExc ChatResponse :=
  let history_payload := historyPayload request.conversation_history
  match svc.generate_response request.message history_payload with
  | .error e => .error (.other e)
  | .ok raw =>
    let sources : List Source :=
      raw.source_documents.enum.map fun p =>
        { id := p.1, content := p.2.content, sectionVal := p.2.sectionVal }
    .ok { answer := raw.answer, sources := sources, metadata := raw.metadata }

/-- The handler's `except` clauses: `except HTTPException: raise`
re-raises classified errors unchanged; `except Exception` replaces any
other failure by the generic 500 `processing_error` response. -/
def handleChatExc : HandlerExc → ChatOutcome
  | .http status detail => .httpError status detail
  | .other _ => .httpError 500 (ERROR_MESSAGES "processing_error")

/-- The guard `not request.message or not request.message.strip()`:
true exactly when the message is empty or strips to nothing, i.e. when
every character is whitespace. -/
def isBlankMessage (s : String) : Bool :=
  s.data.all Char.isWhitespace

/-- The `POST /api/chat` handler `chat`: 503 when the process-wide
`rag_service` is `None`, 400 when the message is empty or blank after
stripping, otherwise the `try` block with its exception mapping. -/
def chat (rag_service : Option RagService) (request : ChatRequest) :
    ChatOutcome :=
  match rag_service with
  | none => .httpError 503 (ERROR_MESSAGES "service_unavailable")
  | some svc =>
    if isBlankMessage request.message then
      .httpError 400 (ERROR_MESSAGES "empty_query")
    else
      match chatTryBlock svc request with
      | .ok response => .success response
      | .error exc => handleChatExc exc

/-- The `POST /chat` alias handler `chat_alias`: it just awaits
`chat(request)`. -/
def chat_alias (rag_service : Option RagService) (request : ChatRequest) :
    ChatOutcome :=
  chat rag_service request

/-- Shape of the `GET /health` response body. -/
structure HealthResponse where
  status : String
  rag_service_ready : Bool
deriving DecidableEq, Repr

/-- The `health` handler:
`{"status": "ok", "rag_service_ready": rag_service is not None}`. -/
def health (rag_service : Option RagService) : HealthResponse :=
  { status := "ok", rag_service_ready := rag_service.isSome }

/-- History block as §4.1 of the spec words it: each prior message
rendered as `"<Label>: <content>"` (`"User"` for role `user`,
`"Assistant"` for role `assistant`), lines joined with newline, and
the literal placeholder `"—"` when there are no prior messages.
Written from the spec's words, to be compared with the source-derived
`historyText` / `buildPrompt`. -/
def specHistoryBlock (history : List HistMsg) : String :=
  if history = [] then "—"
  else
    String.intercalate "\n"
      (history.map fun m =>
        (if m.role = "user" then "User" else "Assistant") ++ ": " ++ m.content)

/-- Whole prompt as §4.1 of the spec words it: the fixed system
instruction prepended, then the history block, then the new query
formatted as `"User: <query>"` followed by the fixed closing
instruction. Written from the spec's words, for comparison with the
source-derived `buildPrompt`. -/
def specPromptOfBuilder (history : List HistMsg) (query : String) : String :=
  systemInstruction ++ "\n\n" ++
  "საუბრის ისტორია:\n" ++ specHistoryBlock history ++ "\n\n" ++
  "ახლა მომხმარებლის ახალი კითხვა:\nUser: " ++ query ++ "\n\n" ++
  "გთხოვ დეტალური და გასაგები პასუხი ქართულად."

/-- Helper: full evaluation of `chat` when the message survives
validation and the client call returns a response object
(no exception). Shared by the success-path claim theorems. -/
theorem chat_returns_eval (svc : RagService) (msg : String)
    (hist : List ConversationMessage) (resp : Option String)
    (hmsg : isBlankMessage msg = false)
    (hclient : svc.generateContent (buildPrompt (historyPayload hist) msg)
      = .returns resp) :
    chat (some svc) { message := msg, conversation_history := hist } =
      .success
        { answer :=
            match resp with
            | none => fallbackAnswer
            | some t => if t = "" then fallbackAnswer else t,
          sources := [{ id := 0, content := syntheticSourceContent,
                        sectionVal := "model: gemini-2.5-flash" }],
          metadata := { model := "gemini-2.5-flash",
                        has_history := !(historyPayload hist).isEmpty } } := by
  simp only [chat, chatTryBlock, RagService.generate_response, hmsg, hclient,
    Bool.false_eq_true, if_false]
  cases resp with
  | none => rfl
  | some t => rfl

/-- Helper: full evaluation of `chat` when the message survives
validation and the client call raises an exception. -/
theorem chat_raises_eval (svc : RagService) (msg : String)
    (hist : List ConversationMessage) (e : String)
    (hmsg : isBlankMessage msg = false)
    (hclient : svc.generateContent (buildPrompt (historyPayload hist) msg)
      = .raises e) :
    chat (some svc) { message := msg, conversation_history := hist } =
      .httpError 500 (ERROR_MESSAGES "processing_error") := by
  simp only [chat, chatTryBlock, RagService.generate_response, hmsg, hclient,
    Bool.false_eq_true, if_false]
  rfl

/-- C1: for every non-blank message and any history, when the client
is available and returns non-empty text, the `ChatResponse` answer is
exactly that text and the sources list is a single entry of id 0. -/
theorem chat_success_answer_and_single_source (svc : RagService)
    (msg : String) (hist : List ConversationMessage) (t : String)
    (hmsg : isBlankMessage msg = false) (ht : t ≠ "")
    (hclient : svc.generateContent (buildPrompt (historyPayload hist) msg)
      = .returns (some t)) :
    ∃ r, chat (some svc) { message := msg, conversation_history := hist }
        = .success r ∧
      r.answer = t ∧ ∃ src, r.sources = [src] ∧ src.id = 0 := by
  refine ⟨_, chat_returns_eval svc msg hist (some t) hmsg hclient, ?_,
    ⟨_, rfl, rfl⟩⟩
  simp [ht]

/-- Witness for C1 at a concrete stubbed client. -/
theorem chat_success_answer_and_single_source_witness :
    isBlankMessage "Hello" = false ∧ "Hi there" ≠ "" ∧
    (∃ r, chat (some ⟨fun _ => .returns (some "Hi there")⟩)
        { message := "Hello", conversation_history := [] } = .success r ∧
      r.answer = "Hi there" ∧ ∃ src, r.sources = [src] ∧ src.id = 0) :=
  ⟨by decide, by decide,
    chat_success_answer_and_single_source ⟨fun _ => .returns (some "Hi there")⟩
      "Hello" [] "Hi there" (by decide) (by decide) rfl⟩

/-- C2: every request reaching response assembly carries metadata with
the model identifier and `has_history` true exactly when the supplied
conversation history is non-empty. -/
theorem chat_metadata_invariant (svc : RagService) (msg : String)
    (hist : List ConversationMessage) (resp : Option String)
    (hmsg : isBlankMessage msg = false)
    (hclient : svc.generateContent (buildPrompt (historyPayload hist) msg)
      = .returns resp) :
    ∃ r, chat (some svc) { message := msg, conversation_history := hist }
        = .success r ∧
      r.metadata.model = "gemini-2.5-flash" ∧
      (r.metadata.has_history = true ↔ hist ≠ []) := by
  refine ⟨_, chat_returns_eval svc msg hist resp hmsg hclient, rfl, ?_⟩
  cases hist <;> simp [historyPayload]

/-- Witness for C2 at a concrete stubbed client, non-empty history. -/
theorem chat_metadata_invariant_witness :
    isBlankMessage "again?" = false ∧
    (∃ r, chat (some ⟨fun _ => .returns (some "yes")⟩)
        { message := "again?",
          conversation_history := [⟨.user, "hi"⟩, ⟨.assistant, "hello"⟩] }
        = .success r ∧
      r.metadata.model = "gemini-2.5-flash" ∧
      (r.metadata.has_history = true ↔
        ([⟨.user, "hi"⟩, ⟨.assistant, "hello"⟩] : List ConversationMessage)
          ≠ [])) :=
  ⟨by decide,
    chat_metadata_invariant ⟨fun _ => .returns (some "yes")⟩ "again?"
      [⟨.user, "hi"⟩, ⟨.assistant, "hello"⟩] (some "yes") (by decide) rfl⟩

/-- C3: the source-derived prompt builder realises exactly the format
the spec describes — labelled history lines joined by newline with the
literal placeholder `"—"` (not the empty string) for empty history,
the fixed system instruction prepended, and `"User: <query>"` plus the
closing instruction appended. -/
theorem buildPrompt_follows_spec_format (history : List HistMsg)
    (query : String) :
    buildPrompt history query = specPromptOfBuilder history query ∧
    historyText [] = "—" ∧ ("—" : String) ≠ "" := by
  refine ⟨?_, rfl, by decide⟩
  cases history with
  | nil => rfl
  | cons m rest => rfl

/-- C4: a message that is empty or all-whitespace is rejected with the
400 `empty_query` error for every client behaviour and every history,
so no model call is attempted. -/
theorem blank_message_rejected (svc : RagService) (request : ChatRequest)
    (hblank : isBlankMessage request.message = true) :
    chat (some svc) request = .httpError 400 (ERROR_MESSAGES "empty_query")
      := by
  simp [chat, hblank]

/-- Witness for C4: whitespace-only message, with non-empty history
and a client that would raise if it were ever called. -/
theorem blank_message_rejected_witness :
    isBlankMessage "   " = true ∧
    chat (some ⟨fun _ => .raises "boom"⟩)
      { message := "   ", conversation_history := [⟨.user, "hi"⟩] }
      = .httpError 400 (ERROR_MESSAGES "empty_query") :=
  ⟨by decide,
    blank_message_rejected ⟨fun _ => .raises "boom"⟩
      { message := "   ", conversation_history := [⟨.user, "hi"⟩] }
      (by decide)⟩

/-- C5: with no initialized `rag_service`, every chat request is
rejected with the 503 `service_unavailable` error (no client exists to
call), and the health endpoint reports the service not ready. -/
theorem unavailable_service_rejects_all (request : ChatRequest) :
    chat none request = .httpError 503 (ERROR_MESSAGES "service_unavailable")
      ∧ (health none).rag_service_ready = false :=
  ⟨rfl, rfl⟩

/-- C6: a raising client yields the fixed generic 500
`processing_error` response — a constant independent of the exception
text, whose detail never contains the propagated `RuntimeError` text —
while already-classified `HTTPException`s pass through the handler's
`except` clauses unchanged. -/
theorem client_exception_kept_generic (svc : RagService) (msg : String)
    (hist : List ConversationMessage) (e : String)
    (hmsg : isBlankMessage msg = false)
    (hclient : svc.generateContent (buildPrompt (historyPayload hist) msg)
      = .raises e) :
    chat (some svc) { message := msg, conversation_history := hist }
      = .httpError 500 (ERROR_MESSAGES "processing_error") ∧
    (¬ ("Gemini error: " ++ e).data <:+:
      (ERROR_MESSAGES "processing_error").data) ∧
    ∀ status detail,
      handleChatExc (.http status detail) = .httpError status detail := by
  refine ⟨chat_raises_eval svc msg hist e hmsg hclient, ?_, fun _ _ => rfl⟩
  intro h
  have hG : 'G' ∈ ("Gemini error: " ++ e).data := by
    rw [String.data_append]
    exact List.mem_append_left _ (by decide)
  have hmem := h.subset hG
  revert hmem
  decide

/-- Witness for C6 at a concrete raising client. -/
theorem client_exception_kept_generic_witness :
    isBlankMessage "hi" = false ∧
    chat (some ⟨fun _ => .raises "quota exceeded"⟩)
      { message := "hi", conversation_history := [] }
      = .httpError 500 (ERROR_MESSAGES "processing_error") :=
  ⟨by decide,
    (client_exception_kept_generic ⟨fun _ => .raises "quota exceeded"⟩
      "hi" [] "quota exceeded" (by decide) rfl).1⟩

/-- C7: a falsy client response, or one whose text is empty, produces
a successful `ChatResponse` whose answer is the fixed fallback
message — not an error. -/
theorem unusable_text_gets_fallback (svc : RagService) (msg : String)
    (hist : List ConversationMessage) (resp : Option String)
    (hmsg : isBlankMessage msg = false)
    (hresp : resp = none ∨ resp = some "")
    (hclient : svc.generateContent (buildPrompt (historyPayload hist) msg)
      = .returns resp) :
    ∃ r, chat (some svc) { message := msg, conversation_history := hist }
        = .success r ∧ r.answer = fallbackAnswer := by
  refine ⟨_, chat_returns_eval svc msg hist resp hmsg hclient, ?_⟩
  rcases hresp with rfl | rfl
  · rfl
  · rfl

/-- Witness for C7 at a concrete client returning empty text. -/
theorem unusable_text_gets_fallback_witness :
    isBlankMessage "hello" = false ∧
    (some "" = (none : Option String) ∨ some "" = some "") ∧
    (∃ r, chat (some ⟨fun _ => .returns (some "")⟩)
        { message := "hello", conversation_history := [] } = .success r ∧
      r.answer = fallbackAnswer) :=
  ⟨by decide, Or.inr rfl,
    unusable_text_gets_fallback ⟨fun _ => .returns (some "")⟩ "hello" []
      (some "") (by decide) (Or.inr rfl) rfl⟩

/-- C8: the prompt builder is a pure function of `(history, query)` —
two invocations on identical inputs yield the identical prompt string,
with no other inputs (state, randomness, time) in its signature. -/
theorem buildPrompt_deterministic (h₁ h₂ : List HistMsg) (q₁ q₂ : String)
    (hh : h₁ = h₂) (hq : q₁ = q₂) :
    buildPrompt h₁ q₁ = buildPrompt h₂ q₂ := by
  rw [hh, hq]

/-- Witness for C8 at a concrete history and query. -/
theorem buildPrompt_deterministic_witness :
    ([⟨"user", "hi"⟩] : List HistMsg) = [⟨"user", "hi"⟩] ∧
    buildPrompt [⟨"user", "hi"⟩] "rain" = buildPrompt [⟨"user", "hi"⟩] "rain"
      :=
  ⟨rfl, buildPrompt_deterministic [⟨"user", "hi"⟩] [⟨"user", "hi"⟩]
    "rain" "rain" rfl rfl⟩

/-- C9: the `POST /chat` alias handler behaves identically to the
primary `POST /api/chat` handler on every service state and request. -/
theorem chat_alias_equivalent (rag_service : Option RagService)
    (request : ChatRequest) :
    chat_alias rag_service request = chat rag_service request :=
  rfl

/-- C10: in the internal prompt-building step, any history entry whose
role is not exactly `"user"` — including invalid role strings — gets
the `"Assistant"` label; only the exact string `"user"` yields
`"User"`. -/
theorem nonuser_role_labelled_assistant (m : HistMsg) :
    (m.role ≠ "user" → renderHistoryLine m = "Assistant: " ++ m.content) ∧
    (m.role = "user" → renderHistoryLine m = "User: " ++ m.content) ∧
    historyText [m] = renderHistoryLine m := by
  refine ⟨fun h => ?_, fun h => ?_, rfl⟩
  · unfold renderHistoryLine
    rw [if_neg h]
    exact congrArg (fun s => s ++ m.content) (by decide)
  · unfold renderHistoryLine
    rw [if_pos h]
    exact congrArg (fun s => s ++ m.content) (by decide)

/-- Witness for C10 at an invalid role string. -/
theorem nonuser_role_labelled_assistant_witness :
    (⟨"system", "be nice"⟩ : HistMsg).role ≠ "user" ∧
    renderHistoryLine ⟨"system", "be nice"⟩ = "Assistant: " ++ "be nice" :=
  ⟨by decide,
    (nonuser_role_labelled_assistant ⟨"system", "be nice"⟩).1 (by decide)⟩

end AiService
